import Mathlib

/-!
Shallow embedding of the tool dispatch layer of the foreman-mcp server
(src/foreman_mcp/server.py): the static tool catalog (list_tools) and the
per-call dispatcher (call_tool).  Remote responses are supplied by an
explicit environment record; every outbound remote call the dispatcher
performs is collected in a trace, so that statements about which remote
calls happen (and with which parameters) can be made.
-/

/-- A primitive parameter value passed to the remote API (the dispatcher
only ever sends strings and integers). -/
inductive ParamValue
  | str (s : String)
  | int (i : Int)
deriving DecidableEq, Repr

/-- The argument mapping of a tool call.  The dispatcher reads only these
keys, always via dict.get, so a key that is missing from the mapping reads
as none; keys it never reads are not modelled. -/
structure Arguments where
  name : Option String
  template : Option String
  description : Option String
  resource : Option String
  search : Option String
  organization_id : Option Int
deriving DecidableEq, Repr

/-- A remote report-template record as the dispatcher reads it: an integer
id, a name (only ever read by direct indexing), and description/template
fields where none models the key being absent from the record. -/
structure Record where
  id : Int
  name : String
  description : Option String
  template : Option String
deriving DecidableEq, Repr

/-- Classified failures of a dispatch.  Each constructor corresponds to one
raise site of the source: the ValueError messages for a missing argument,
a template that was not found, the unimplemented tool and an unknown tool;
the HTTPStatusError from raise_for_status, carrying the status; and an
uncaught KeyError from direct dict indexing on an absent key. -/
inductive Err
  | missingArgument (msg : String)
  | notFound (msg : String)
  | notImplemented (msg : String)
  | unknownTool (msg : String)
  | remoteRequestFailed (status : Nat)
  | keyError (key : String)
deriving DecidableEq, Repr

/-- A content block of a tool result; this server only produces text. -/
inductive Content
  | text (s : String)
deriving DecidableEq, Repr

/-- One outbound remote call: a generic resource_action of the API client,
or a raw HTTP GET of the documentation fetcher. -/
inductive RemoteCall
  | resourceAction (resource action : String) (params : List (String × ParamValue))
  | httpGet (url : String)
deriving DecidableEq, Repr

/-- An HTTP response as the documentation tools consume it. -/
structure HttpResponse where
  status : Nat
  text : String
deriving DecidableEq, Repr

/-- Success statuses, as distinguished by httpx's raise_for_status. -/
def HttpResponse.is2xx (r : HttpResponse) : Bool :=
  decide (200 ≤ r.status ∧ r.status < 300)

/-- httpx Response.raise_for_status: an error carrying the status on any
non-2xx response, no effect otherwise. -/
def HttpResponse.raiseForStatus (r : HttpResponse) : Except Err Unit :=
  if r.is2xx then .ok () else .error (.remoteRequestFailed r.status)

/-- The environment a dispatch runs against: the configuration handed to
the server plus an oracle for every remote response.  The generic
resource_action capability is split by the call shape the dispatcher uses:
index queries against report_templates yield the results list of records,
a show against report_templates yields one record, and the index of an
arbitrary resource is represented by the serialized text that json.dumps
produces from its results field (only the parameters of that call, which
the trace records, matter to the dispatcher's contract). -/
structure Foreman where
  baseUrl : String
  username : String
  password : String
  indexReportTemplates : List (String × ParamValue) → List Record
  showReportTemplate : Int → Record
  searchIndexDump : String → List (String × ParamValue) → String
  httpGet : String → HttpResponse
  resources : List String

/-- Python truthiness on an optional string: None and the empty string are
both falsy, so the source's guards of the shape `if not x: raise` reject
exactly the none and empty cases. -/
def strOpt : Option String → Option String
  | none => none
  | some s => if s = "" then none else some s

/-- str.rstrip applied to the slash character. -/
def rstripSlash (s : String) : String :=
  String.mk ((s.toList.reverse.dropWhile (fun c => c = '/')).reverse)

/-- URL of the report-templates documentation page. -/
def templatesDocUrl (base : String) : String :=
  rstripSlash base ++ "/templates_doc/v1/reports.en.html"

/-- URL of the api documentation page of one resource. -/
def apidocUrl (base resource : String) : String :=
  rstripSlash base ++ "/apidoc/v2/" ++ resource ++ "/index.en.html"

/-- One block of list-all-report-templates output.  Both fields are read by
direct indexing, so an absent description key is an uncaught KeyError. -/
def listEntryLine (t : Record) : Except Err String :=
  match t.description with
  | none => .error (.keyError "description")
  | some d => .ok ("Name: " ++ t.name ++ "\nDescription: " ++ d)

/-- The list comprehension building one block per record. -/
def listAllLines : List Record → Except Err (List String)
  | [] => .ok []
  | t :: ts =>
    match listEntryLine t, listAllLines ts with
    | .ok l, .ok ls => .ok (l :: ls)
    | .error e, _ => .error e
    | .ok _, .error e => .error e

/-- Branch of call_tool for list-all-report-templates. -/
def handleListAllReportTemplates (fm : Foreman) :
    Except Err (List Content) × List RemoteCall :=
  let call := RemoteCall.resourceAction "report_templates" "index" []
  match listAllLines (fm.indexReportTemplates []) with
  | .error e => (.error e, [call])
  | .ok lines => (.ok [Content.text (String.intercalate "\n\n" lines)], [call])

/-- Branch of call_tool for get-report-template. -/
def handleGetReportTemplate (fm : Foreman) (arguments : Arguments) :
    Except Err (List Content) × List RemoteCall :=
  match strOpt arguments.name with
  | none => (.error (.missingArgument "Missing \x27name\x27 argument for get-report-template"), [])
  | some template_name =>
    let params : List (String × ParamValue) :=
      [("search", ParamValue.str ("name=\"" ++ template_name ++ "\""))]
    let call1 := RemoteCall.resourceAction "report_templates" "index" params
    match fm.indexReportTemplates params with
    | [] =>
      (.error (.notFound ("Report template \x27" ++ template_name ++ "\x27 not found")), [call1])
    | t0 :: _ =>
      let tmpl := fm.showReportTemplate t0.id
      (.ok [Content.text ("Name: " ++ tmpl.name ++ "\nDescription: " ++
          tmpl.description.getD "" ++ "\nTemplate:\n" ++ tmpl.template.getD "")],
       [call1, RemoteCall.resourceAction "report_templates" "show" [("id", ParamValue.int t0.id)]])

/-- Branch of call_tool for create-report-template. -/
def handleCreateReportTemplate (name : String) :
    Except Err (List Content) × List RemoteCall :=
  (.error (.notImplemented ("Not implemented: " ++ name)), [])

/-- Branch of call_tool for get-report-templates-documentation. -/
def handleGetReportTemplatesDocumentation (fm : Foreman) :
    Except Err (List Content) × List RemoteCall :=
  let url := templatesDocUrl fm.baseUrl
  let response := fm.httpGet url
  match response.raiseForStatus with
  | .error e => (.error e, [RemoteCall.httpGet url])
  | .ok _ => (.ok [Content.text response.text], [RemoteCall.httpGet url])

/-- The fixed preamble text around the bullet list of resources. -/
def resourcesText (resources : List String) : String :=
  let resource_list := String.intercalate "\n" (resources.map (fun r => "- " ++ r))
  "\n            The Foreman API provides the following resources:\n            " ++
    resource_list ++
    "\n\n            Details about each resource and how to search for them can be obtained using the `get-resource-api-documentation` tool.\n            You can also search for specific resources using the `search-resource` tool.\n            "

/-- Branch of call_tool for list-foreman-resources; the resources
enumeration is an attribute populated at client construction, so reading
it is not a per-call remote call. -/
def handleListForemanResources (fm : Foreman) :
    Except Err (List Content) × List RemoteCall :=
  (.ok [Content.text (resourcesText fm.resources)], [])

/-- Branch of call_tool for get-resource-api-documentation (the message of
its missing-argument error names list-resource-search-options, verbatim
from the source). -/
def handleGetResourceApiDocumentation (fm : Foreman) (arguments : Arguments) :
    Except Err (List Content) × List RemoteCall :=
  match strOpt arguments.resource with
  | none =>
    (.error (.missingArgument "Missing \x27resource\x27 argument for list-resource-search-options"), [])
  | some resource =>
    let url := apidocUrl fm.baseUrl resource
    let response := fm.httpGet url
    match response.raiseForStatus with
    | .error e => (.error e, [RemoteCall.httpGet url])
    | .ok _ => (.ok [Content.text response.text], [RemoteCall.httpGet url])

/-- The dict comprehension of the search-resource branch: pair the search
and organization_id keys with the caller's values and drop every pair
whose value is None. -/
def searchParams (arguments : Arguments) : List (String × ParamValue) :=
  ([("search", arguments.search.map ParamValue.str),
    ("organization_id", arguments.organization_id.map ParamValue.int)] :
      List (String × Option ParamValue)).filterMap
    (fun kv => kv.2.map (fun v => (kv.1, v)))

/-- Branch of call_tool for search-resource.  Note the source validates
only the resource argument here; search is passed through unchecked. -/
def handleSearchResource (fm : Foreman) (arguments : Arguments) :
    Except Err (List Content) × List RemoteCall :=
  match strOpt arguments.resource with
  | none =>
    (.error (.missingArgument "Missing \x27resource\x27 argument for search-resource"), [])
  | some resource =>
    let params := searchParams arguments
    (.ok [Content.text (fm.searchIndexDump resource params)],
     [RemoteCall.resourceAction resource "index" params])

/-- The dispatcher: the elif chain of call_tool in the source, returning
the classified result together with the trace of remote calls made. -/
def call_tool (fm : Foreman) (name : String) (arguments : Arguments) :
    Except Err (List Content) × List RemoteCall :=
  if name = "list-all-report-templates" then handleListAllReportTemplates fm
  else if name = "get-report-template" then handleGetReportTemplate fm arguments
  else if name = "create-report-template" then handleCreateReportTemplate name
  else if name = "get-report-templates-documentation" then handleGetReportTemplatesDocumentation fm
  else if name = "list-foreman-resources" then handleListForemanResources fm
  else if name = "get-resource-api-documentation" then handleGetResourceApiDocumentation fm arguments
  else if name = "search-resource" then handleSearchResource fm arguments
  else (.error (.unknownTool ("Unknown tool: " ++ name)), [])

/-- Primitive type of a schema property. -/
inductive ArgType
  | string
  | integer
deriving DecidableEq, Repr

/-- One property of a tool's input schema. -/
structure PropertySpec where
  type : ArgType
  description : String
deriving DecidableEq, Repr

/-- The input schema of a tool: an object schema with a required list and
named properties. -/
structure InputSchema where
  required : List String
  properties : List (String × PropertySpec)
deriving DecidableEq, Repr

/-- A tool descriptor of the catalog. -/
structure Tool where
  name : String
  description : String
  inputSchema : InputSchema
deriving DecidableEq, Repr

/-- The optional arguments of a tool: its declared properties that are not
in its required list. -/
def toolOptionalArgs (t : Tool) : List String :=
  (t.inputSchema.properties.map Prod.fst).filter
    (fun k => !(t.inputSchema.required.contains k))

/-- The static catalog, verbatim from the source's list_tools. -/
def list_tools : List Tool :=
  [⟨"render-report-template",
    "Renders a report template in Foreman and returns the result",
    ⟨["name"],
     [("name", ⟨ArgType.string, "Name of the report template to render"⟩)]⟩⟩,
   ⟨"create-report-template",
    "Creates a report template in Foreman",
    ⟨["name", "template"],
     [("name", ⟨ArgType.string, "Name of the report template to create"⟩),
      ("template", ⟨ArgType.string, "Body of the report template to create"⟩),
      ("description", ⟨ArgType.string, "Description of the report template to create"⟩)]⟩⟩,
   ⟨"get-report-template",
    "Retrieves a specific report template by name from Foreman",
    ⟨["name"],
     [("name", ⟨ArgType.string, "Name of the report template to retrieve"⟩)]⟩⟩,
   ⟨"list-all-report-templates",
    "Retrieves the list of all available report templates in Foreman",
    ⟨[], []⟩⟩,
   ⟨"get-report-templates-documentation",
    "Retrieves the documentation for report templates from Foreman in HTML format",
    ⟨[], []⟩⟩,
   ⟨"list-foreman-resources",
    "Lists all available Foreman API resources, one per line for use with other tools." ++
      "The list does not contain any details about the resources, just their names. " ++
      "Additional details about each resource can be obtained using the `get-resource-api-documentation` tool." ++
      "The resources can also be searched using the `search-resource` tool.",
    ⟨[], []⟩⟩,
   ⟨"get-resource-api-documentation",
    "Retrieves the documentation for a specific Foreman resource",
    ⟨["resource"],
     [("resource", ⟨ArgType.string, "Name of the Foreman resource to get documentation for"⟩)]⟩⟩,
   ⟨"search-resource",
    "Searches a specific Foreman resource using the provided search query",
    ⟨["resource", "search"],
     [("resource", ⟨ArgType.string, "Name of the Foreman resource to search"⟩),
      ("search", ⟨ArgType.string, "Search query to use for the resource. " ++
        "Individual resources may have different search syntax, refer to the resource documentation for details. " ++
        "Logical operators such as AND and OR can be used to build complex queries."⟩),
      ("organization_id", ⟨ArgType.integer, "Optional organization ID to filter the search"⟩)]⟩⟩]

/-- An empty argument mapping. -/
def noArgs : Arguments := ⟨none, none, none, none, none, none⟩

/-- A small concrete environment used to evaluate the dispatcher. -/
def fmEx : Foreman :=
  ⟨"https://foreman.example.com/", "admin", "changeme",
   fun _ => [], fun i => ⟨i, "t", none, none⟩, fun _ _ => "[]",
   fun _ => ⟨200, "<html>ok</html>"⟩, ["hosts", "report_templates"]⟩

/-- An argument mapping that supplies only the resource key. -/
def argsHostsOnly : Arguments := ⟨none, none, none, some "hosts", none, none⟩

/-- An environment whose index query finds one record with id 7 and whose
show query returns a record with all three fields present. -/
def fm3 : Foreman :=
  ⟨"https://foreman.example.com", "admin", "changeme",
   fun _ => [⟨7, "idx-name", none, none⟩],
   fun i => ⟨i, "X", some "Y", some "Z"⟩,
   fun _ _ => "[]", fun _ => ⟨200, ""⟩, []⟩

/-- An argument mapping naming the template X. -/
def args3 : Arguments := ⟨some "X", none, none, none, none, none⟩

/-- An argument mapping with resource and search but no organization_id. -/
def args6 : Arguments := ⟨none, none, none, some "hosts", some "name=foo", none⟩

/-- An environment whose HTTP GET always returns status 404. -/
def fm404 : Foreman :=
  ⟨"https://foreman.example.com", "admin", "changeme",
   fun _ => [], fun i => ⟨i, "t", none, none⟩, fun _ _ => "[]",
   fun _ => ⟨404, "not found"⟩, []⟩

/-- An argument mapping supplying only the resource key. -/
def args7 : Arguments := ⟨none, none, none, some "hosts", none, none⟩

/-- An environment whose unfiltered index query returns two records, both
carrying a description field. -/
def fm8 : Foreman :=
  ⟨"https://foreman.example.com", "admin", "changeme",
   fun _ => [⟨1, "A", some "da", none⟩, ⟨2, "B", some "db", some "t"⟩],
   fun i => ⟨i, "t", none, none⟩, fun _ _ => "[]", fun _ => ⟨200, ""⟩, []⟩

/-- An argument mapping whose name value contains a double-quote. -/
def args9 : Arguments := ⟨some "a\"b", none, none, none, none, none⟩

/-- When every record of a list carries a description field, the block
builder of list-all-report-templates succeeds and produces one
Name/Description block per record. -/
theorem listAllLines_ok (l : List Record) (h : ∀ t ∈ l, t.description ≠ none) :
    listAllLines l = .ok (l.map
      (fun t => "Name: " ++ t.name ++ "\nDescription: " ++ t.description.getD "")) := by
  induction l with
  | nil => rfl
  | cons t ts ih =>
    have ht : t.description ≠ none := h t (List.mem_cons_self t ts)
    obtain ⟨d, hd⟩ := Option.ne_none_iff_exists'.mp ht
    simp [listAllLines, listEntryLine, hd,
      ih (fun x hx => h x (List.mem_cons_of_mem t hx))]

/-- C1: the claim fails on the code.  Invoking search-resource with the
required search argument absent is not rejected as a missing argument:
the dispatcher builds a parameter mapping without a search key, issues the
remote index query anyway, and succeeds, so no missing-argument failure
and no fail-fast happen for this required argument. -/
theorem c1_search_missing_search_still_calls_remote :
    call_tool fmEx "search-resource" argsHostsOnly =
      (.ok [Content.text "[]"], [RemoteCall.resourceAction "hosts" "index" []]) := rfl

/-- C2: counterexample to the claim as stated.  The catalog also lists
render-report-template, a tool that is not among the seven names the
claim allows. -/
theorem c2_catalog_counterexample :
    (list_tools.map (fun t => t.name)).contains "render-report-template" = true ∧
    (["list-all-report-templates", "get-report-template", "create-report-template",
      "get-report-templates-documentation", "list-foreman-resources",
      "get-resource-api-documentation", "search-resource"].contains
        "render-report-template" = false) := by
  constructor <;> rfl

/-- C2 (amended): the catalog returns, in a fixed order and as a constant
list, descriptors for exactly eight tools: render-report-template with
required argument name, followed by the seven claimed tools with exactly
the required and optional arguments of the claim's table, and no other
tool. -/
theorem c2_catalog_exact :
    list_tools.map (fun t => (t.name, t.inputSchema.required, toolOptionalArgs t)) =
      [("render-report-template", ["name"], []),
       ("create-report-template", ["name", "template"], ["description"]),
       ("get-report-template", ["name"], []),
       ("list-all-report-templates", [], []),
       ("get-report-templates-documentation", [], []),
       ("list-foreman-resources", [], []),
       ("get-resource-api-documentation", ["resource"], []),
       ("search-resource", ["resource", "search"], ["organization_id"])] := by
  rfl

/-- C3: get-report-template with a non-empty name fails as not-found when
the index query returns zero results; otherwise it takes the first
result's identifier, issues a show query for that record, and returns one
text block formatted Name, Description, Template from the shown record,
with an absent description or template field rendered as the empty
string. -/
theorem c3_get_report_template (fm : Foreman) (args : Arguments) (n : String)
    (h1 : args.name = some n) (h2 : n ≠ "") :
    (fm.indexReportTemplates [("search", ParamValue.str ("name=\"" ++ n ++ "\""))] = [] →
      call_tool fm "get-report-template" args =
        (.error (.notFound ("Report template \x27" ++ n ++ "\x27 not found")),
         [RemoteCall.resourceAction "report_templates" "index"
            [("search", ParamValue.str ("name=\"" ++ n ++ "\""))]])) ∧
    (∀ t0 rest,
      fm.indexReportTemplates [("search", ParamValue.str ("name=\"" ++ n ++ "\""))] = t0 :: rest →
      call_tool fm "get-report-template" args =
        (.ok [Content.text ("Name: " ++ (fm.showReportTemplate t0.id).name ++
            "\nDescription: " ++ ((fm.showReportTemplate t0.id).description.getD "") ++
            "\nTemplate:\n" ++ ((fm.showReportTemplate t0.id).template.getD ""))],
         [RemoteCall.resourceAction "report_templates" "index"
            [("search", ParamValue.str ("name=\"" ++ n ++ "\""))],
          RemoteCall.resourceAction "report_templates" "show"
            [("id", ParamValue.int t0.id)]])) := by
  have e : call_tool fm "get-report-template" args = handleGetReportTemplate fm args := rfl
  constructor
  · intro hemp
    rw [e]
    simp [handleGetReportTemplate, strOpt, h1, h2, hemp]
  · intro t0 rest hcons
    rw [e]
    simp [handleGetReportTemplate, strOpt, h1, h2, hcons]

/-- Witness for C3 in a concrete environment: the shown record has name X,
description Y and template Z, and the call returns exactly the claimed
block after an index and a show call. -/
theorem c3_witness :
    call_tool fm3 "get-report-template" args3 =
      (.ok [Content.text "Name: X\nDescription: Y\nTemplate:\nZ"],
       [RemoteCall.resourceAction "report_templates" "index"
          [("search", ParamValue.str "name=\"X\"")],
        RemoteCall.resourceAction "report_templates" "show" [("id", ParamValue.int 7)]]) :=
  (c3_get_report_template fm3 args3 "X" rfl (by decide)).2 ⟨7, "idx-name", none, none⟩ [] rfl

/-- C4: create-report-template fails with the not-implemented
classification for every argument mapping and performs no remote call. -/
theorem c4_create_not_implemented (fm : Foreman) (args : Arguments) :
    call_tool fm "create-report-template" args =
      (.error (.notImplemented "Not implemented: create-report-template"), []) := rfl

/-- C5: every tool name outside the catalog fails with the unknown-tool
classification whose message names the offending tool, and no remote call
is performed. -/
theorem c5_unknown_tool (fm : Foreman) (name : String) (args : Arguments)
    (h : name ∉ list_tools.map (fun t => t.name)) :
    call_tool fm name args = (.error (.unknownTool ("Unknown tool: " ++ name)), []) := by
  have h1 : ¬ name = "list-all-report-templates" := by
    intro e; subst e; exact h (by decide)
  have h2 : ¬ name = "get-report-template" := by
    intro e; subst e; exact h (by decide)
  have h3 : ¬ name = "create-report-template" := by
    intro e; subst e; exact h (by decide)
  have h4 : ¬ name = "get-report-templates-documentation" := by
    intro e; subst e; exact h (by decide)
  have h5 : ¬ name = "list-foreman-resources" := by
    intro e; subst e; exact h (by decide)
  have h6 : ¬ name = "get-resource-api-documentation" := by
    intro e; subst e; exact h (by decide)
  have h7 : ¬ name = "search-resource" := by
    intro e; subst e; exact h (by decide)
  simp only [call_tool, if_neg h1, if_neg h2, if_neg h3, if_neg h4, if_neg h5,
    if_neg h6, if_neg h7]

/-- Witness for C5 at the concrete tool name frobnicate. -/
theorem c5_witness :
    call_tool fmEx "frobnicate" noArgs =
      (.error (.unknownTool "Unknown tool: frobnicate"), []) :=
  c5_unknown_tool fmEx "frobnicate" noArgs (by decide)

/-- C6: with non-empty resource and search arguments, the parameter
mapping of the single remote index call binds search to the caller's
value, binds organization_id exactly when the caller supplied a value,
and contains no other key; no absent value is ever placed in the
mapping. -/
theorem c6_search_resource_params (fm : Foreman) (args : Arguments) (r s : String)
    (hr : args.resource = some r) (hr2 : r ≠ "") (hs : args.search = some s)
    (_hs2 : s ≠ "") :
    (call_tool fm "search-resource" args).2 =
      [RemoteCall.resourceAction r "index" (searchParams args)] ∧
    (searchParams args).lookup "search" = some (ParamValue.str s) ∧
    (searchParams args).lookup "organization_id" = args.organization_id.map ParamValue.int ∧
    (∀ k v, (k, v) ∈ searchParams args → k = "search" ∨ k = "organization_id") := by
  have e : call_tool fm "search-resource" args = handleSearchResource fm args := rfl
  refine ⟨?_, ?_, ?_, ?_⟩
  · rw [e]; simp [handleSearchResource, strOpt, hr, hr2]
  · cases ho : args.organization_id <;> simp [searchParams, hs, ho, List.lookup]
  · cases ho : args.organization_id <;> simp [searchParams, hs, ho, List.lookup]
  · intro k v hm
    cases ho : args.organization_id with
    | none =>
      simp [searchParams, hs, ho] at hm
      exact Or.inl hm.1
    | some o =>
      simp [searchParams, hs, ho] at hm
      rcases hm with ⟨hk, _⟩ | ⟨hk, _⟩
      · exact Or.inl hk
      · exact Or.inr hk

/-- Witness for C6: searching hosts for name=foo with no organization
sends exactly the search key and no organization_id key. -/
theorem c6_witness :
    (call_tool fmEx "search-resource" args6).2 =
      [RemoteCall.resourceAction "hosts" "index" [("search", ParamValue.str "name=foo")]] ∧
    (searchParams args6).lookup "search" = some (ParamValue.str "name=foo") ∧
    (searchParams args6).lookup "organization_id" = none :=
  have h := c6_search_resource_params fmEx args6 "hosts" "name=foo" rfl (by decide) rfl (by decide)
  ⟨h.1, h.2.1, h.2.2.1⟩

/-- C7: each documentation tool performs exactly one HTTP GET of its
documentation URL; a non-2xx status makes the invocation fail with the
remote-request-failed classification carrying that status, and a 2xx
status returns the raw response body verbatim as the sole text block. -/
theorem c7_documentation_tools (fm : Foreman) (a1 a2 : Arguments) (r : String)
    (hr : a2.resource = some r) (hr2 : r ≠ "") :
    call_tool fm "get-report-templates-documentation" a1 =
      ((if (fm.httpGet (templatesDocUrl fm.baseUrl)).is2xx then
          .ok [Content.text (fm.httpGet (templatesDocUrl fm.baseUrl)).text]
        else .error (.remoteRequestFailed (fm.httpGet (templatesDocUrl fm.baseUrl)).status)),
       [RemoteCall.httpGet (templatesDocUrl fm.baseUrl)]) ∧
    call_tool fm "get-resource-api-documentation" a2 =
      ((if (fm.httpGet (apidocUrl fm.baseUrl r)).is2xx then
          .ok [Content.text (fm.httpGet (apidocUrl fm.baseUrl r)).text]
        else .error (.remoteRequestFailed (fm.httpGet (apidocUrl fm.baseUrl r)).status)),
       [RemoteCall.httpGet (apidocUrl fm.baseUrl r)]) := by
  constructor
  · have e : call_tool fm "get-report-templates-documentation" a1 =
        handleGetReportTemplatesDocumentation fm := rfl
    rw [e]
    simp only [handleGetReportTemplatesDocumentation, HttpResponse.raiseForStatus]
    cases hx : (fm.httpGet (templatesDocUrl fm.baseUrl)).is2xx <;> simp [hx]
  · have e : call_tool fm "get-resource-api-documentation" a2 =
        handleGetResourceApiDocumentation fm a2 := rfl
    rw [e]
    simp only [handleGetResourceApiDocumentation, HttpResponse.raiseForStatus, strOpt, hr]
    rw [if_neg hr2]
    cases hx : (fm.httpGet (apidocUrl fm.baseUrl r)).is2xx <;> simp [hx]

/-- Witness for C7: a 200 response is returned verbatim, and a 404
response fails carrying status 404. -/
theorem c7_witness :
    call_tool fmEx "get-report-templates-documentation" noArgs =
      (.ok [Content.text "<html>ok</html>"],
       [RemoteCall.httpGet "https://foreman.example.com/templates_doc/v1/reports.en.html"]) ∧
    call_tool fm404 "get-resource-api-documentation" args7 =
      (.error (.remoteRequestFailed 404),
       [RemoteCall.httpGet "https://foreman.example.com/apidoc/v2/hosts/index.en.html"]) :=
  have h1 := c7_documentation_tools fmEx noArgs args7 "hosts" rfl (by decide)
  have h2 := c7_documentation_tools fm404 noArgs args7 "hosts" rfl (by decide)
  ⟨h1.1, h2.2⟩

/-- C8: for every result list of the unfiltered index query whose records
carry a description field (both fields are read by direct indexing),
list-all-report-templates returns exactly one text entry joining one
Name/Description block per record with a blank line; the empty result
list yields a single empty text block rather than a failure. -/
theorem c8_list_all (fm : Foreman) (args : Arguments)
    (h : ∀ t ∈ fm.indexReportTemplates [], t.description ≠ none) :
    call_tool fm "list-all-report-templates" args =
      (.ok [Content.text (String.intercalate "\n\n"
          ((fm.indexReportTemplates []).map
            (fun t => "Name: " ++ t.name ++ "\nDescription: " ++ t.description.getD "")))],
       [RemoteCall.resourceAction "report_templates" "index" []]) := by
  have e : call_tool fm "list-all-report-templates" args = handleListAllReportTemplates fm := rfl
  rw [e]
  simp [handleListAllReportTemplates, listAllLines_ok _ h]

/-- Witness for C8: the empty result list yields a single empty text
block, and a two-record list yields the two blocks joined by a blank
line. -/
theorem c8_witness :
    call_tool fmEx "list-all-report-templates" noArgs =
      (.ok [Content.text ""], [RemoteCall.resourceAction "report_templates" "index" []]) ∧
    call_tool fm8 "list-all-report-templates" noArgs =
      (.ok [Content.text "Name: A\nDescription: da\n\nName: B\nDescription: db"],
       [RemoteCall.resourceAction "report_templates" "index" []]) :=
  ⟨c8_list_all fmEx noArgs (by decide), c8_list_all fm8 noArgs (by decide)⟩

/-- C9: the search filter get-report-template sends to the remote index
query is exactly the string interpolating the caller's value verbatim
between the two double-quote characters of a name equality filter, with
no local escaping. -/
theorem c9_filter_interpolated_verbatim (fm : Foreman) (args : Arguments) (v : String)
    (h1 : args.name = some v) (h2 : v ≠ "") :
    (call_tool fm "get-report-template" args).2.head? =
      some (RemoteCall.resourceAction "report_templates" "index"
        [("search", ParamValue.str ("name=\"" ++ v ++ "\""))]) := by
  have e : call_tool fm "get-report-template" args = handleGetReportTemplate fm args := rfl
  rw [e]
  simp only [handleGetReportTemplate, strOpt, h1]
  rw [if_neg h2]
  cases hx : fm.indexReportTemplates [("search", ParamValue.str ("name=\"" ++ v ++ "\""))] <;>
    simp [hx]

/-- Witness for C9 at a name containing a double-quote: the quote reaches
the outbound filter unescaped. -/
theorem c9_witness :
    (call_tool fm3 "get-report-template" args9).2.head? =
      some (RemoteCall.resourceAction "report_templates" "index"
        [("search", ParamValue.str "name=\"a\"b\"")]) :=
  c9_filter_interpolated_verbatim fm3 args9 "a\"b" rfl (by decide)

/-- C10: render-report-template is advertised by the catalog with
required argument name, yet the dispatcher has no branch for it: every
invocation falls through to the unknown-tool failure and performs no
remote call. -/
theorem c10_render_report_template_ghost :
    ((list_tools.map (fun t => (t.name, t.inputSchema.required))).contains
        ("render-report-template", ["name"]) = true) ∧
    ∀ (fm : Foreman) (args : Arguments),
      call_tool fm "render-report-template" args =
        (.error (.unknownTool "Unknown tool: render-report-template"), []) :=
  ⟨by decide, fun _ _ => rfl⟩
